import Mathlib

/-!
Verification of the config-loadr configuration loading library.

The embedding follows `src/builder.rs`, `src/error.rs` and `src/environment.rs`:

* The process environment is a function `String → EnvVal`.  The Rust
  function `std::env::var` returns `Ok(s)` for a present, valid-Unicode value and an
  error (`NotPresent` or `NotUnicode`) otherwise; `EnvVal` distinguishes the
  three underlying states while `envVarLookup` collapses both error cases to
  `none`, exactly as the `Err(_)` arm in `env_parse` does.
* Type-directed parsing (`FromStr`) is a parameter `parse : String → Option T`;
  `Display` used for stringifying defaults/examples is a parameter
  `toStr : T → String`.
* `ConfigBuilder` is a record of the two `Vec`s (`errors`, `fields`); the
  `&mut self` methods are state-passing functions returning the loaded value
  together with the new state.  `panic!` in `finish_or_panic` is modelled as
  returning `some message`; a normal return is `none`.
* Colored output is modelled with colorization disabled (plain strings), as the
  tests of the repository do via `colored::control::set_override(false)`.
-/

namespace ConfigLoadr

/-- State of one key in the process environment: absent, present but not valid
Unicode, or present with a Unicode string value. -/
inductive EnvVal where
  | absent
  | nonUnicode
  | present (s : String)
deriving DecidableEq

/-- `std::env::var`: `Ok(s)` only for a present Unicode value; both `NotPresent`
and `NotUnicode` are errors, which `env_parse` matches with `Err(_)`. -/
def envVarLookup : EnvVal → Option String
  | EnvVal.present s => some s
  | EnvVal.absent => none
  | EnvVal.nonUnicode => none

/-- A process environment: the value state of every key. -/
def Env : Type := String → EnvVal

/-- `ConfigError` from `src/error.rs`. -/
inductive ConfigError where
  | MissingEnvVar (key description : String) (ex : Option String)
  | InvalidEnvironment (key value description : String) (ex : Option String)
deriving DecidableEq

/-- `FieldMetadata` from `src/builder.rs`. -/
structure FieldMetadata where
  key : String
  description : String
  default_str : String
  required : Bool
deriving DecidableEq

/-- `env_parse` from `src/builder.rs` lines 19-41. -/
def env_parse {T : Type} (parse : String → Option T) (env : Env)
    (key description : String) (ex : Option String) : Except ConfigError T :=
  match envVarLookup (env key) with
  | some s =>
    match parse s with
    | some parsed => Except.ok parsed
    | none => Except.error (ConfigError.InvalidEnvironment key s description ex)
  | none => Except.error (ConfigError.MissingEnvVar key description ex)

/-- `env_required` from `src/builder.rs` lines 44-51. -/
def env_required {T : Type} (parse : String → Option T) (toStr : T → String)
    (env : Env) (key description : String) (ex : T) : Except ConfigError T :=
  env_parse parse env key description (some (toStr ex))

/-- `env_or_default` from `src/builder.rs` lines 57-68. -/
def env_or_default {T : Type} (parse : String → Option T) (toStr : T → String)
    (env : Env) (key description : String) (dflt : T) : Except ConfigError T :=
  match env_parse parse env key description (some (toStr dflt)) with
  | Except.ok value => Except.ok value
  | Except.error (ConfigError.MissingEnvVar _ _ _) => Except.ok dflt
  | Except.error e => Except.error e

/-- `env_or_option` from `src/builder.rs` lines 75-86. -/
def env_or_option {T : Type} (parse : String → Option T) (env : Env)
    (key description : String) (ex : Option String) :
    Except ConfigError (Option T) :=
  match env_parse parse env key description ex with
  | Except.ok value => Except.ok (some value)
  | Except.error (ConfigError.MissingEnvVar _ _ _) => Except.ok none
  | Except.error e => Except.error e

/-- `Display for ConfigError` from `src/error.rs` (colors disabled). -/
def displayConfigError : ConfigError → String
  | ConfigError.MissingEnvVar key description ex =>
    key ++ ": Is missing from environment and is required\n" ++
    "\tDescription: " ++ description ++ "\n" ++
    (match ex with
     | some ex => "\tExample: " ++ key ++ "=" ++ ex ++ "\n"
     | none => "")
  | ConfigError.InvalidEnvironment key value description ex =>
    key ++ ": Invalid value \x27" ++ value ++ "\x27\n" ++
    "\tDescription: " ++ description ++ "\n" ++
    (match ex with
     | some ex => "\tExample: " ++ key ++ "=" ++ ex ++ "\n"
     | none => "")

/-- `format_config_errors` from `src/builder.rs` lines 89-101 (colors disabled). -/
def format_config_errors (errors : List ConfigError) : String :=
  let error_summary :=
    String.intercalate "\n" (errors.map (fun e => "  - " ++ displayConfigError e))
  "Configuration failed with " ++ toString errors.length ++ " error(s):\n" ++
    error_summary

/-- `ConfigBuilder` from `src/builder.rs` lines 114-117. -/
structure ConfigBuilder where
  errors : List ConfigError
  fields : List FieldMetadata
deriving DecidableEq

/-- `ConfigBuilder::new`. -/
def ConfigBuilder.new : ConfigBuilder := { errors := [], fields := [] }

/-- `ConfigBuilder::required` from `src/builder.rs` lines 129-150. -/
def ConfigBuilder.required {T : Type} (b : ConfigBuilder)
    (parse : String → Option T) (toStr : T → String) (env : Env)
    (key description : String) (ex : T) : Option T × ConfigBuilder :=
  let b1 : ConfigBuilder :=
    { b with fields := b.fields ++
        [{ key := key, description := description,
           default_str := toStr ex, required := true }] }
  match env_required parse toStr env key description ex with
  | Except.ok value => (some value, b1)
  | Except.error e => (none, { b1 with errors := b1.errors ++ [e] })

/-- `ConfigBuilder::or_default` from `src/builder.rs` lines 155-176. -/
def ConfigBuilder.or_default {T : Type} (b : ConfigBuilder)
    (parse : String → Option T) (toStr : T → String) (env : Env)
    (key description : String) (dflt : T) : Option T × ConfigBuilder :=
  let b1 : ConfigBuilder :=
    { b with fields := b.fields ++
        [{ key := key, description := description,
           default_str := toStr dflt, required := false }] }
  match env_or_default parse toStr env key description dflt with
  | Except.ok value => (some value, b1)
  | Except.error e => (none, { b1 with errors := b1.errors ++ [e] })

/-- `ConfigBuilder::optional` from `src/builder.rs` lines 182-205. -/
def ConfigBuilder.optional {T : Type} (b : ConfigBuilder)
    (parse : String → Option T) (env : Env)
    (key description : String) (ex : Option String) :
    Option T × ConfigBuilder :=
  let b1 : ConfigBuilder :=
    { b with fields := b.fields ++
        [{ key := key, description := description,
           default_str := ex.getD "", required := false }] }
  match env_or_option parse env key description ex with
  | Except.ok value => (value, b1)
  | Except.error e => (none, { b1 with errors := b1.errors ++ [e] })

/-- `ConfigBuilder::validate` from `src/builder.rs` lines 211-217.  The method
takes `&self`; the state-passing embedding returns the result together with the
(untouched) builder state. -/
def ConfigBuilder.validate (b : ConfigBuilder) :
    Except (List ConfigError) Unit × ConfigBuilder :=
  (if b.errors.isEmpty then Except.ok () else Except.error b.errors, b)

/-- `ConfigBuilder::finish` from `src/builder.rs` lines 223-229 (consuming). -/
def ConfigBuilder.finish (b : ConfigBuilder) : Except (List ConfigError) Unit :=
  if b.errors.isEmpty then Except.ok () else Except.error b.errors

/-- `ConfigBuilder::finish_or_panic` from `src/builder.rs` lines 232-236.
`some msg` models `panic!` with message `msg`; `none` models a normal return. -/
def ConfigBuilder.finish_or_panic (b : ConfigBuilder) : Option String :=
  if b.errors.isEmpty then none else some (format_config_errors b.errors)

/-- One table row of `ConfigBuilder::write_docs` (`src/builder.rs` lines
260-271). -/
def renderFieldRow (field : FieldMetadata) : String :=
  let required_str := if field.required then "Yes" else "No"
  let default_display :=
    if field.default_str.isEmpty then "-" else field.default_str
  "| " ++ field.key ++ " | " ++ required_str ++ " | " ++ field.description ++
    " | " ++ default_display ++ " |\n"

/-- The fixed heading and table header emitted by `write_docs`. -/
def docHeader : String :=
  "## Environment Variables Summary\n\n" ++
  "| Variable | Required | Description | Default/Example |\n" ++
  "|----------|----------|-------------|------------------|\n"

/-- `ConfigBuilder::write_docs` from `src/builder.rs` lines 253-274, modelled as
the markdown string it writes to the given path (the `fs::write` call is the
only file-system effect and carries the string unchanged). -/
def ConfigBuilder.write_docs (b : ConfigBuilder) : String :=
  docHeader ++ String.join (b.fields.map renderFieldRow)

/-- `Environment` from `src/environment.rs`. -/
inductive Environment where
  | Prod
  | Dev
deriving DecidableEq

/-- `Environment::from_str` from `src/environment.rs` lines 11-26. -/
def Environment.from_str (s : String) : Except ConfigError Environment :=
  if s = "prod" ∨ s = "production" then Except.ok Environment.Prod
  else if s = "dev" ∨ s = "development" then Except.ok Environment.Dev
  else
    Except.error (ConfigError.InvalidEnvironment "ENVIRONMENT" s
      "Expected \x27dev\x27 or \x27prod\x27" (some "prod"))

/-- Erase the `example` component of a `ConfigError`, keeping kind, key,
description and raw value.  Used to state that the example argument of a
Required load can influence at most the example field of an error. -/
def ConfigError.eraseExample : ConfigError → ConfigError
  | ConfigError.MissingEnvVar key description _ =>
    ConfigError.MissingEnvVar key description none
  | ConfigError.InvalidEnvironment key value description _ =>
    ConfigError.InvalidEnvironment key value description none

/-- One field-loading call against a `ConfigBuilder`, type-erased over the
target type `T`: the three `&mut self` methods with their arguments. -/
inductive FieldCall : Type 1 where
  | requiredCall (T : Type) (parse : String → Option T) (toStr : T → String)
      (key description : String) (ex : T)
  | defaultCall (T : Type) (parse : String → Option T) (toStr : T → String)
      (key description : String) (dflt : T)
  | optionalCall (T : Type) (parse : String → Option T)
      (key description : String) (ex : Option String)

/-- Execute one field-loading call on a builder state (dropping the returned
value, which the caller owns). -/
def runFieldCall (env : Env) (b : ConfigBuilder) : FieldCall → ConfigBuilder
  | FieldCall.requiredCall _ parse toStr key description ex =>
    (ConfigBuilder.required b parse toStr env key description ex).2
  | FieldCall.defaultCall _ parse toStr key description dflt =>
    (ConfigBuilder.or_default b parse toStr env key description dflt).2
  | FieldCall.optionalCall _ parse key description ex =>
    (ConfigBuilder.optional b parse env key description ex).2

/-- Execute a sequence of field-loading calls from left to right. -/
def runFieldCalls (env : Env) (b : ConfigBuilder) (cs : List FieldCall) :
    ConfigBuilder :=
  cs.foldl (runFieldCall env) b

/-- The metadata entry a call records (it does not depend on the environment). -/
def callMeta : FieldCall → FieldMetadata
  | FieldCall.requiredCall _ _ toStr key description ex =>
    { key := key, description := description,
      default_str := toStr ex, required := true }
  | FieldCall.defaultCall _ _ toStr key description dflt =>
    { key := key, description := description,
      default_str := toStr dflt, required := false }
  | FieldCall.optionalCall _ _ key description ex =>
    { key := key, description := description,
      default_str := ex.getD "", required := false }

/-- The error a call collects under a given environment, if it fails. -/
def callError (env : Env) : FieldCall → Option ConfigError
  | FieldCall.requiredCall _ parse toStr key description ex =>
    match env_required parse toStr env key description ex with
    | Except.ok _ => none
    | Except.error e => some e
  | FieldCall.defaultCall _ parse toStr key description dflt =>
    match env_or_default parse toStr env key description dflt with
    | Except.ok _ => none
    | Except.error e => some e
  | FieldCall.optionalCall _ parse key description ex =>
    match env_or_option parse env key description ex with
    | Except.ok _ => none
    | Except.error e => some e

/-- An environment in which every key is unset. -/
def envAbsent : Env := fun _ => EnvVal.absent

/-- An environment that sets exactly one key to a Unicode string. -/
def envWith (k v : String) : Env :=
  fun key => if key = k then EnvVal.present v else EnvVal.absent

/-- An environment in which every key is present but not valid Unicode. -/
def envNonUnicode : Env := fun _ => EnvVal.nonUnicode

/-- A concrete parser used to instantiate the generic theorems on small
inputs: accepts exactly the strings "8080" and "9090". -/
def sampleParseNat : String → Option Nat :=
  fun s => if s = "8080" then some 8080 else if s = "9090" then some 9090 else none

/-- C1: a Default-mode load (`env_or_default` / `ConfigBuilder::or_default`)
returns the declared default with no error recorded when the key is absent,
an `InvalidEnvironment` error carrying the key and the raw string (never the
default) when the key is present but fails to parse, and the parsed value when
the key is present and parses. -/
theorem or_default_mode_spec {T : Type} (parse : String → Option T)
    (toStr : T → String) (env : Env) (key description : String)
    (dflt : T) (b : ConfigBuilder) :
    (env key = EnvVal.absent →
      env_or_default parse toStr env key description dflt = Except.ok dflt ∧
      (ConfigBuilder.or_default b parse toStr env key description dflt).1 =
        some dflt ∧
      (ConfigBuilder.or_default b parse toStr env key description dflt).2.errors =
        b.errors) ∧
    (∀ s, env key = EnvVal.present s → parse s = none →
      env_or_default parse toStr env key description dflt =
        Except.error
          (ConfigError.InvalidEnvironment key s description (some (toStr dflt))) ∧
      (ConfigBuilder.or_default b parse toStr env key description dflt).1 =
        none ∧
      (ConfigBuilder.or_default b parse toStr env key description dflt).2.errors =
        b.errors ++
          [ConfigError.InvalidEnvironment key s description (some (toStr dflt))]) ∧
    (∀ s v, env key = EnvVal.present s → parse s = some v →
      env_or_default parse toStr env key description dflt = Except.ok v ∧
      (ConfigBuilder.or_default b parse toStr env key description dflt).1 =
        some v ∧
      (ConfigBuilder.or_default b parse toStr env key description dflt).2.errors =
        b.errors) := by
  refine ⟨?_, ?_, ?_⟩
  · intro h
    simp [env_or_default, env_parse, envVarLookup, h, ConfigBuilder.or_default]
  · intro s hs hp
    simp [env_or_default, env_parse, envVarLookup, hs, hp, ConfigBuilder.or_default]
  · intro s v hs hp
    simp [env_or_default, env_parse, envVarLookup, hs, hp, ConfigBuilder.or_default]

/-- C1 witness: the three cases of `or_default_mode_spec` at concrete inputs. -/
theorem or_default_mode_spec_witness :
    env_or_default sampleParseNat toString envAbsent "PORT" "Server port" 8080 =
      Except.ok 8080 ∧
    env_or_default sampleParseNat toString (envWith "PORT" "abc") "PORT"
      "Server port" 8080 =
      Except.error
        (ConfigError.InvalidEnvironment "PORT" "abc" "Server port" (some "8080")) ∧
    env_or_default sampleParseNat toString (envWith "PORT" "9090") "PORT"
      "Server port" 8080 = Except.ok 9090 :=
  ⟨((or_default_mode_spec sampleParseNat toString envAbsent "PORT" "Server port"
      8080 ConfigBuilder.new).1 rfl).1,
   ((or_default_mode_spec sampleParseNat toString (envWith "PORT" "abc") "PORT"
      "Server port" 8080 ConfigBuilder.new).2.1 "abc" rfl rfl).1,
   ((or_default_mode_spec sampleParseNat toString (envWith "PORT" "9090") "PORT"
      "Server port" 8080 ConfigBuilder.new).2.2 "9090" 9090 rfl rfl).1⟩

/-- C2: an Optional-mode load (`env_or_option` / `ConfigBuilder::optional`)
returns `none` with zero errors when the key is absent, `some` of the parsed
value when the key is present and parses, and exactly one `InvalidEnvironment`
error (never a silent `none`) when the key is present but fails to parse. -/
theorem optional_mode_spec {T : Type} (parse : String → Option T)
    (env : Env) (key description : String) (ex : Option String)
    (b : ConfigBuilder) :
    (env key = EnvVal.absent →
      env_or_option parse env key description ex = Except.ok none ∧
      (ConfigBuilder.optional b parse env key description ex).1 = none ∧
      (ConfigBuilder.optional b parse env key description ex).2.errors =
        b.errors) ∧
    (∀ s v, env key = EnvVal.present s → parse s = some v →
      env_or_option parse env key description ex = Except.ok (some v) ∧
      (ConfigBuilder.optional b parse env key description ex).1 = some v ∧
      (ConfigBuilder.optional b parse env key description ex).2.errors =
        b.errors) ∧
    (∀ s, env key = EnvVal.present s → parse s = none →
      env_or_option parse env key description ex =
        Except.error (ConfigError.InvalidEnvironment key s description ex) ∧
      (ConfigBuilder.optional b parse env key description ex).1 = none ∧
      (ConfigBuilder.optional b parse env key description ex).2.errors =
        b.errors ++ [ConfigError.InvalidEnvironment key s description ex]) := by
  refine ⟨?_, ?_, ?_⟩
  · intro h
    simp [env_or_option, env_parse, envVarLookup, h, ConfigBuilder.optional]
  · intro s v hs hp
    simp [env_or_option, env_parse, envVarLookup, hs, hp, ConfigBuilder.optional]
  · intro s hs hp
    simp [env_or_option, env_parse, envVarLookup, hs, hp, ConfigBuilder.optional]

/-- C2 witness: the three cases of `optional_mode_spec` at concrete inputs. -/
theorem optional_mode_spec_witness :
    env_or_option sampleParseNat envAbsent "DEBUG_LEVEL" "Debug level"
      (some "9090") = Except.ok none ∧
    env_or_option sampleParseNat (envWith "DEBUG_LEVEL" "9090") "DEBUG_LEVEL"
      "Debug level" (some "9090") = Except.ok (some 9090) ∧
    env_or_option sampleParseNat (envWith "DEBUG_LEVEL" "verbose") "DEBUG_LEVEL"
      "Debug level" (some "9090") =
      Except.error (ConfigError.InvalidEnvironment "DEBUG_LEVEL" "verbose"
        "Debug level" (some "9090")) :=
  ⟨((optional_mode_spec sampleParseNat envAbsent "DEBUG_LEVEL" "Debug level"
      (some "9090") ConfigBuilder.new).1 rfl).1,
   ((optional_mode_spec sampleParseNat (envWith "DEBUG_LEVEL" "9090")
      "DEBUG_LEVEL" "Debug level" (some "9090") ConfigBuilder.new).2.1
      "9090" 9090 rfl rfl).1,
   ((optional_mode_spec sampleParseNat (envWith "DEBUG_LEVEL" "verbose")
      "DEBUG_LEVEL" "Debug level" (some "9090") ConfigBuilder.new).2.2
      "verbose" rfl rfl).1⟩

/-- C3: a Required-mode load (`env_required` / `ConfigBuilder::required`)
yields exactly one `MissingEnvVar` error when the key is absent, the parsed
value when the key is present and parses, and exactly one `InvalidEnvironment`
error carrying the raw string when the key is present but fails to parse; the
example value is never returned as the result. -/
theorem required_mode_spec {T : Type} (parse : String → Option T)
    (toStr : T → String) (env : Env) (key description : String)
    (ex : T) (b : ConfigBuilder) :
    (env key = EnvVal.absent →
      env_required parse toStr env key description ex =
        Except.error
          (ConfigError.MissingEnvVar key description (some (toStr ex))) ∧
      (ConfigBuilder.required b parse toStr env key description ex).1 = none ∧
      (ConfigBuilder.required b parse toStr env key description ex).2.errors =
        b.errors ++
          [ConfigError.MissingEnvVar key description (some (toStr ex))]) ∧
    (∀ s v, env key = EnvVal.present s → parse s = some v →
      env_required parse toStr env key description ex = Except.ok v ∧
      (ConfigBuilder.required b parse toStr env key description ex).1 =
        some v ∧
      (ConfigBuilder.required b parse toStr env key description ex).2.errors =
        b.errors) ∧
    (∀ s, env key = EnvVal.present s → parse s = none →
      env_required parse toStr env key description ex =
        Except.error
          (ConfigError.InvalidEnvironment key s description (some (toStr ex))) ∧
      (ConfigBuilder.required b parse toStr env key description ex).1 = none ∧
      (ConfigBuilder.required b parse toStr env key description ex).2.errors =
        b.errors ++
          [ConfigError.InvalidEnvironment key s description (some (toStr ex))]) := by
  refine ⟨?_, ?_, ?_⟩
  · intro h
    simp [env_required, env_parse, envVarLookup, h, ConfigBuilder.required]
  · intro s v hs hp
    simp [env_required, env_parse, envVarLookup, hs, hp, ConfigBuilder.required]
  · intro s hs hp
    simp [env_required, env_parse, envVarLookup, hs, hp, ConfigBuilder.required]

/-- C3 witness: the three cases of `required_mode_spec` at concrete inputs. -/
theorem required_mode_spec_witness :
    env_required sampleParseNat toString envAbsent "PORT" "Server port" 8080 =
      Except.error
        (ConfigError.MissingEnvVar "PORT" "Server port" (some "8080")) ∧
    env_required sampleParseNat toString (envWith "PORT" "9090") "PORT"
      "Server port" 8080 = Except.ok 9090 ∧
    env_required sampleParseNat toString (envWith "PORT" "abc") "PORT"
      "Server port" 8080 =
      Except.error
        (ConfigError.InvalidEnvironment "PORT" "abc" "Server port" (some "8080")) :=
  ⟨((required_mode_spec sampleParseNat toString envAbsent "PORT" "Server port"
      8080 ConfigBuilder.new).1 rfl).1,
   ((required_mode_spec sampleParseNat toString (envWith "PORT" "9090") "PORT"
      "Server port" 8080 ConfigBuilder.new).2.1 "9090" 9090 rfl rfl).1,
   ((required_mode_spec sampleParseNat toString (envWith "PORT" "abc") "PORT"
      "Server port" 8080 ConfigBuilder.new).2.2 "abc" rfl rfl).1⟩

/-- C10: `env_parse` classifies every failure of the environment lookup itself
as `MissingEnvVar`, including a present-but-non-Unicode value, so on such a
value `env_or_default` silently returns the default and `env_or_option`
silently returns `none` instead of reporting an `InvalidEnvironment` error. -/
theorem env_parse_nonunicode_spec {T : Type} (parse : String → Option T)
    (toStr : T → String) (env : Env) (key description : String)
    (dflt : T) (ex : Option String) (h : env key = EnvVal.nonUnicode) :
    env_parse parse env key description ex =
      Except.error (ConfigError.MissingEnvVar key description ex) ∧
    env_or_default parse toStr env key description dflt = Except.ok dflt ∧
    env_or_option parse env key description ex = Except.ok none := by
  refine ⟨?_, ?_, ?_⟩ <;>
    simp [env_parse, env_or_default, env_or_option, envVarLookup, h]

/-- C10 witness: `env_parse_nonunicode_spec` on an environment whose every
value is present but not valid Unicode. -/
theorem env_parse_nonunicode_spec_witness :
    env_parse sampleParseNat envNonUnicode "PORT" "Server port" (some "8080") =
      Except.error
        (ConfigError.MissingEnvVar "PORT" "Server port" (some "8080")) ∧
    env_or_default sampleParseNat toString envNonUnicode "PORT" "Server port"
      8080 = Except.ok 8080 ∧
    env_or_option sampleParseNat envNonUnicode "PORT" "Server port"
      (some "8080") = Except.ok none :=
  env_parse_nonunicode_spec sampleParseNat toString envNonUnicode "PORT"
    "Server port" 8080 (some "8080") rfl

/-- One field-loading call always appends exactly one metadata entry. -/
theorem runFieldCall_fields (env : Env) (b : ConfigBuilder) (c : FieldCall) :
    (runFieldCall env b c).fields = b.fields ++ [callMeta c] := by
  cases c with
  | requiredCall T parse toStr key description ex =>
    simp only [runFieldCall, ConfigBuilder.required, callMeta]
    cases env_required parse toStr env key description ex <;> simp
  | defaultCall T parse toStr key description dflt =>
    simp only [runFieldCall, ConfigBuilder.or_default, callMeta]
    cases env_or_default parse toStr env key description dflt <;> simp
  | optionalCall T parse key description ex =>
    simp only [runFieldCall, ConfigBuilder.optional, callMeta]
    cases env_or_option parse env key description ex <;> simp

/-- One field-loading call appends exactly its own error, when it fails. -/
theorem runFieldCall_errors (env : Env) (b : ConfigBuilder) (c : FieldCall) :
    (runFieldCall env b c).errors = b.errors ++ (callError env c).toList := by
  cases c with
  | requiredCall T parse toStr key description ex =>
    simp only [runFieldCall, ConfigBuilder.required, callError]
    cases env_required parse toStr env key description ex <;> simp
  | defaultCall T parse toStr key description dflt =>
    simp only [runFieldCall, ConfigBuilder.or_default, callError]
    cases env_or_default parse toStr env key description dflt <;> simp
  | optionalCall T parse key description ex =>
    simp only [runFieldCall, ConfigBuilder.optional, callError]
    cases env_or_option parse env key description ex <;> simp

/-- Accumulated form of the aggregation invariant, for any starting state. -/
theorem runFieldCalls_accum (env : Env) (cs : List FieldCall)
    (b : ConfigBuilder) :
    (runFieldCalls env b cs).fields = b.fields ++ cs.map callMeta ∧
    (runFieldCalls env b cs).errors = b.errors ++ cs.filterMap (callError env) := by
  induction cs generalizing b with
  | nil => simp [runFieldCalls]
  | cons c cs ih =>
    rcases ih (runFieldCall env b c) with ⟨ihf, ihe⟩
    refine ⟨?_, ?_⟩
    · show (runFieldCalls env (runFieldCall env b c) cs).fields = _
      rw [ihf, runFieldCall_fields]
      simp
    · show (runFieldCalls env (runFieldCall env b c) cs).errors = _
      rw [ihe, runFieldCall_errors]
      cases h : callError env c <;> simp [List.filterMap_cons, h]

/-- The length of a `filterMap` is the number of elements mapped to `some`. -/
theorem length_filterMap_isSome {α : Type 1} {β : Type} (f : α → Option β)
    (l : List α) :
    (l.filterMap f).length = (l.filter (fun a => (f a).isSome)).length := by
  induction l with
  | nil => simp
  | cons a l ih =>
    cases h : f a <;>
      simp [List.filterMap_cons, List.filter_cons, h, ih]

/-- C4: over any sequence of N field-loading calls on a fresh builder, the
metadata list has exactly one entry per call in call order (N entries), the
error list is exactly the errors of the failing calls, in the order those calls were
made (M entries), and no call short-circuits evaluation of later calls. -/
theorem builder_aggregation_spec (env : Env) (cs : List FieldCall) :
    (runFieldCalls env ConfigBuilder.new cs).fields = cs.map callMeta ∧
    (runFieldCalls env ConfigBuilder.new cs).fields.length = cs.length ∧
    (runFieldCalls env ConfigBuilder.new cs).errors =
      cs.filterMap (callError env) ∧
    (runFieldCalls env ConfigBuilder.new cs).errors.length =
      (cs.filter (fun c => (callError env c).isSome)).length := by
  rcases runFieldCalls_accum env cs ConfigBuilder.new with ⟨hf, he⟩
  simp only [ConfigBuilder.new, List.nil_append] at hf he ⊢
  exact ⟨hf, by rw [hf]; simp, he, by rw [he, length_filterMap_isSome]⟩

/-- A sample collected error used to instantiate builder-level theorems. -/
def sampleMissingError : ConfigError :=
  ConfigError.MissingEnvVar "NAME" "Service name" none

/-- C5: `finish_or_panic` panics exactly when the accumulated error list is
non-empty, and the panic message is the full aggregated summary: the header
"Configuration failed with N error(s):" with N the number of collected errors,
followed by one indented block per error in collection order. -/
theorem finish_or_panic_spec (b : ConfigBuilder) :
    (b.finish_or_panic = none ↔ b.errors = []) ∧
    (b.errors ≠ [] →
      b.finish_or_panic = some (format_config_errors b.errors) ∧
      format_config_errors b.errors =
        "Configuration failed with " ++ toString b.errors.length ++
          " error(s):\n" ++
          String.intercalate "\n"
            (b.errors.map (fun e => "  - " ++ displayConfigError e))) := by
  refine ⟨?_, fun h => ⟨?_, rfl⟩⟩
  · rcases h : b.errors with _ | ⟨e, es⟩ <;>
      simp [ConfigBuilder.finish_or_panic, h]
  · rcases hh : b.errors with _ | ⟨e, es⟩
    · exact absurd hh h
    · simp [ConfigBuilder.finish_or_panic, hh]

/-- C5 witness: `finish_or_panic_spec` on a builder holding one error and on a
builder holding none. -/
theorem finish_or_panic_spec_witness :
    ConfigBuilder.finish_or_panic
        { errors := [sampleMissingError], fields := [] } =
      some ("Configuration failed with 1 error(s):\n" ++
        "  - NAME: Is missing from environment and is required\n" ++
        "\tDescription: Service name\n") ∧
    ConfigBuilder.finish_or_panic { errors := [], fields := [] } = none := by
  have h := (finish_or_panic_spec
    { errors := [sampleMissingError], fields := [] }).2 (by simp)
  have h0 := (finish_or_panic_spec { errors := [], fields := [] }).1
  exact ⟨by rw [h.1]; rfl, h0.mpr rfl⟩

/-- C6: `validate` returns `Ok` exactly when the accumulated error list is
empty and otherwise returns that error list; it leaves the builder state (both
lists) untouched, and calling it twice yields the same result. -/
theorem validate_spec (b : ConfigBuilder) :
    (b.validate).2 = b ∧
    (b.validate).2.errors = b.errors ∧
    (b.validate).2.fields = b.fields ∧
    ((b.validate).1 = Except.ok () ↔ b.errors = []) ∧
    (b.errors ≠ [] → (b.validate).1 = Except.error b.errors) ∧
    (b.validate).2.validate = b.validate := by
  refine ⟨rfl, rfl, rfl, ?_, ?_, rfl⟩
  · rcases h : b.errors with _ | ⟨e, es⟩ <;> simp [ConfigBuilder.validate, h]
  · intro h
    rcases hh : b.errors with _ | ⟨e, es⟩
    · exact absurd hh h
    · simp [ConfigBuilder.validate, hh]

/-- C6 witness: `validate_spec` on a builder holding one error and on a fresh
builder. -/
theorem validate_spec_witness :
    (ConfigBuilder.validate { errors := [sampleMissingError], fields := [] }).1 =
      Except.error [sampleMissingError] ∧
    (ConfigBuilder.validate { errors := [], fields := [] }).1 = Except.ok () :=
  ⟨(validate_spec { errors := [sampleMissingError], fields := [] }).2.2.2.2.1
      (by simp),
   (validate_spec { errors := [], fields := [] }).2.2.2.1.mpr rfl⟩

/-- C7: `Environment::from_str` maps exactly "prod" and "production" to
`Prod`, exactly "dev" and "development" to `Dev` (case-sensitively), and every
other string to an `InvalidEnvironment` error whose example is "prod" and
whose raw value is the input string. -/
theorem environment_from_str_spec :
    Environment.from_str "prod" = Except.ok Environment.Prod ∧
    Environment.from_str "production" = Except.ok Environment.Prod ∧
    Environment.from_str "dev" = Except.ok Environment.Dev ∧
    Environment.from_str "development" = Except.ok Environment.Dev ∧
    ∀ s, s ≠ "prod" → s ≠ "production" → s ≠ "dev" → s ≠ "development" →
      Environment.from_str s =
        Except.error (ConfigError.InvalidEnvironment "ENVIRONMENT" s
          "Expected \x27dev\x27 or \x27prod\x27" (some "prod")) := by
  refine ⟨rfl, rfl, rfl, rfl, ?_⟩
  intro s h1 h2 h3 h4
  simp [Environment.from_str, h1, h2, h3, h4]

/-- C7 witness: `environment_from_str_spec` applied to the unknown string
"staging" and to the wrong-case string "PROD". -/
theorem environment_from_str_spec_witness :
    Environment.from_str "staging" =
      Except.error (ConfigError.InvalidEnvironment "ENVIRONMENT" "staging"
        "Expected \x27dev\x27 or \x27prod\x27" (some "prod")) ∧
    Environment.from_str "PROD" =
      Except.error (ConfigError.InvalidEnvironment "ENVIRONMENT" "PROD"
        "Expected \x27dev\x27 or \x27prod\x27" (some "prod")) :=
  ⟨environment_from_str_spec.2.2.2.2 "staging"
      (by decide) (by decide) (by decide) (by decide),
   environment_from_str_spec.2.2.2.2 "PROD"
      (by decide) (by decide) (by decide) (by decide)⟩

/-- C8: `write_docs` renders from the metadata list alone (two builders with
the same fields render identically regardless of their error lists), producing
the fixed header followed by exactly one table row per recorded field in
recording order; each row shows the key, "Yes"/"No" for the required flag, the
description, and the default/example string with "-" substituted when empty. -/
theorem write_docs_spec (b : ConfigBuilder) :
    (∀ b2 : ConfigBuilder, b.fields = b2.fields →
      b.write_docs = b2.write_docs) ∧
    b.write_docs = docHeader ++ String.join (b.fields.map renderFieldRow) ∧
    (b.fields.map renderFieldRow).length = b.fields.length ∧
    (∀ f ∈ b.fields, renderFieldRow f =
      "| " ++ f.key ++ " | " ++ (if f.required then "Yes" else "No") ++
        " | " ++ f.description ++ " | " ++
        (if f.default_str.isEmpty then "-" else f.default_str) ++ " |\n") := by
  refine ⟨?_, rfl, by simp, ?_⟩
  · intro b2 h
    simp [ConfigBuilder.write_docs, h]
  · intro f _
    rfl

/-- Sample metadata entries used to instantiate `write_docs_spec`. -/
def sampleField : FieldMetadata :=
  { key := "PORT", description := "Server port", default_str := "8080",
    required := false }

/-- A sample metadata entry with an empty default/example string. -/
def sampleFieldEmpty : FieldMetadata :=
  { key := "DEBUG_LEVEL", description := "Debug level", default_str := "",
    required := false }

/-- C8 witness: `write_docs_spec` on two concrete builders with the same
fields but different error lists, and on a field with an empty default. -/
theorem write_docs_spec_witness :
    ConfigBuilder.write_docs
        { errors := [sampleMissingError],
          fields := [sampleField, sampleFieldEmpty] } =
      ConfigBuilder.write_docs
        { errors := [], fields := [sampleField, sampleFieldEmpty] } ∧
    renderFieldRow sampleFieldEmpty = "| DEBUG_LEVEL | No | Debug level | - |\n" := by
  refine ⟨(write_docs_spec
    { errors := [sampleMissingError],
      fields := [sampleField, sampleFieldEmpty] }).1
    { errors := [], fields := [sampleField, sampleFieldEmpty] } rfl, ?_⟩
  have h := (write_docs_spec
    { errors := [], fields := [sampleField, sampleFieldEmpty] }).2.2.2
    sampleFieldEmpty (by simp)
  rw [h]
  rfl

/-- C9: in a Required-mode load the example argument never influences the
outcome classification or the returned value: with the same environment, two
runs differing only in the example agree on success values and, on failure, on
the kind, key, description and raw value of the error — only its example
field may differ (erased here by `ConfigError.eraseExample`). -/
theorem env_required_example_noninterference {T : Type}
    (parse : String → Option T) (toStr : T → String) (env : Env)
    (key description : String) (ex1 ex2 : T) :
    Except.mapError ConfigError.eraseExample
        (env_required parse toStr env key description ex1) =
      Except.mapError ConfigError.eraseExample
        (env_required parse toStr env key description ex2) := by
  cases h : envVarLookup (env key) with
  | none =>
    simp [env_required, env_parse, h, Except.mapError, ConfigError.eraseExample]
  | some s =>
    cases hp : parse s <;>
      simp [env_required, env_parse, h, hp, Except.mapError,
        ConfigError.eraseExample]

end ConfigLoadr
